import Mathlib

/-!
Verification of the after-call data pipeline of the salon voice-agent
repository.  This file is a shallow embedding of the core logic of
`ai_utils.py` (transcript flattening and date/time normalization),
`actions.py` (the booking tool and its confidence gate) and
`after_call_handler.py` (the after-call pipeline with its dual-sink
persistence), together with proofs about the embedded definitions.

Modelling conventions:
* Python strings are modelled as `List Char` (`Str`); the per-character
  operations used by the source (`upper`, `strip`, `replace`) act on the
  ASCII range exactly as Python does on ASCII input.
* Fallible Python operations are modelled with `Option`/`Except`; a raised
  exception is an `Except.error`.
* The external effects of the pipeline (CSV appends, Google Sheets appends,
  log lines) are recorded as an explicit event trace.
* External dependencies (the wall clock, the LLM calls, the two sinks and
  the timezone database) are injected as explicit parameters, so theorems
  quantify over every possible behaviour of these collaborators.
-/

/-- Python strings, modelled as their character lists. -/
abbrev Str := List Char

/-- One transcript entry `{"role": ..., "content": ...}` (cf. `TranscriptItem`
in `ai_utils.py`). -/
structure TranscriptItem where
  role : Str
  content : Str
deriving DecidableEq

/-- The ASCII whitespace characters stripped by Python `str.strip()` and
matched by the regex class `\s` (Python additionally handles non-ASCII
Unicode whitespace; all inputs relevant here are ASCII). -/
def isPySpace (c : Char) : Bool :=
  c = ' ' || c = '\t' || c = '\n' || c = '\r' || c = '\x0b' || c = '\x0c'

/-- `str.upper()` on the ASCII range: uppercase every character. -/
def pyUpper (s : Str) : Str := s.map Char.toUpper

/-- `content.replace('\n', ' ')`: turn every newline into a space. -/
def replaceNewlines (s : Str) : Str := s.map (fun c => if c = '\n' then ' ' else c)

/-- Leading-whitespace removal (first half of `str.strip()`). -/
def pyStripFront (s : Str) : Str := s.dropWhile isPySpace

/-- Trailing-whitespace removal (second half of `str.strip()`). -/
def pyStripEnd (s : Str) : Str := (s.reverse.dropWhile isPySpace).reverse

/-- `str.strip()`: remove leading and trailing whitespace. -/
def pyStrip (s : Str) : Str := pyStripEnd (pyStripFront s)

/-- The content transformation `transcript_to_single_line` applies to each
kept entry: `item['content'].replace('\n', ' ').strip()`. -/
def normContent (s : Str) : Str := pyStrip (replaceNewlines s)

/-- The rendered segment `f"{item['role'].upper()}: {item['content'].replace('\n',' ').strip()}"`. -/
def renderItem (it : TranscriptItem) : Str :=
  pyUpper it.role ++ (':' :: ' ' :: normContent it.content)

/-- Python `sep.join(parts)`. -/
def sepJoin (sep : Str) : List Str → Str
  | [] => []
  | [a] => a
  | a :: b :: rest => a ++ sep ++ sepJoin sep (b :: rest)

/-- `transcript_to_single_line` (`ai_utils.py`, lines 58-71): join with
`" | "` the rendered segments of all entries whose `content` is truthy
(non-empty). -/
def transcript_to_single_line (transcript : List TranscriptItem) : Str :=
  sepJoin (" | ".toList)
    ((transcript.filter (fun it => !it.content.isEmpty)).map renderItem)

/-- An independently written recursive description of the flattening: drop
empty-content entries, keep the rest in order, separate kept segments by
`" | "` with no empty segments.  Used to state what the flattening computes. -/
def flattenSpec : List TranscriptItem → Str
  | [] => []
  | it :: rest =>
    if it.content.isEmpty then flattenSpec rest
    else if (flattenSpec rest).isEmpty then renderItem it
    else renderItem it ++ " | ".toList ++ flattenSpec rest

/-- Re-application of the flattening content transformation to an entry:
the entry as it would appear were its content taken from a previous
flattening pass. -/
def normItem (it : TranscriptItem) : TranscriptItem :=
  ⟨it.role, normContent it.content⟩

/-! ## DateTimeResolver: `normalize_visit_datetime_pst` (`ai_utils.py`)

The source validates the interpretation step's output with
`datetime.strptime(data["date"], "%Y-%m-%d")` and
`datetime.strptime(data["time"], "%H:%M")`, then parses
`f'{data["date"]} {data["time"]}'` with `"%Y-%m-%d %H:%M"`.

CPython's `_strptime` compiles each directive to a regex alternation and
accepts the first backtracking match of the whole format, then requires the
whole input to have been consumed and the resulting calendar date to be
valid.  The directive character classes (ASCII digits; Python's `\d` also
admits non-ASCII Unicode digits, which do not occur in the inputs modelled
here) are:
  `%Y` = `\d\d\d\d`, `%m` = `1[0-2]|0[1-9]|[1-9]`,
  `%d` = `3[01]|[12]\d|0[1-9]|[1-9]| [1-9]`,
  `%H` = `2[0-3]|[0-1]\d|\d`, `%M` = `[0-5]\d|\d`,
and a whitespace in the format matches `\s+`.
Each parser below returns the candidate `(value, rest)` parses in regex
alternation order; sequencing with `List.flatMap` reproduces the regex
engine's backtracking preference order. -/

/-- Numeric value of an ASCII digit. -/
def digitVal (c : Char) : Nat := c.toNat - 48

/-- `%Y`: exactly four digits. -/
def yearParses : Str → List (Nat × Str)
  | a :: b :: c :: d :: rest =>
    if a.isDigit ∧ b.isDigit ∧ c.isDigit ∧ d.isDigit then
      [(digitVal a * 1000 + digitVal b * 100 + digitVal c * 10 + digitVal d, rest)]
    else []
  | _ => []

/-- `%m`: `1[0-2]|0[1-9]|[1-9]`, candidates in alternation order. -/
def monthParses : Str → List (Nat × Str)
  | [] => []
  | a :: rest =>
    (match a, rest with
     | '1', b :: r2 => if '0' ≤ b ∧ b ≤ '2' then [(10 + digitVal b, r2)] else []
     | '0', b :: r2 => if '1' ≤ b ∧ b ≤ '9' then [(digitVal b, r2)] else []
     | _, _ => []) ++
    (if '1' ≤ a ∧ a ≤ '9' then [(digitVal a, rest)] else [])

/-- `%d`: `3[01]|[12]\d|0[1-9]|[1-9]| [1-9]`, candidates in alternation
order (for each head character the applicable two-character alternative
comes before the one-character `[1-9]` alternative, exactly as in the
regex). -/
def dayParses : Str → List (Nat × Str)
  | [] => []
  | a :: rest =>
    (match a, rest with
     | '3', b :: r2 => if b = '0' ∨ b = '1' then [(30 + digitVal b, r2)] else []
     | '1', b :: r2 => if b.isDigit then [(10 + digitVal b, r2)] else []
     | '2', b :: r2 => if b.isDigit then [(20 + digitVal b, r2)] else []
     | '0', b :: r2 => if '1' ≤ b ∧ b ≤ '9' then [(digitVal b, r2)] else []
     | ' ', b :: r2 => if '1' ≤ b ∧ b ≤ '9' then [(digitVal b, r2)] else []
     | _, _ => []) ++
    (if '1' ≤ a ∧ a ≤ '9' then [(digitVal a, rest)] else [])

/-- `%H`: `2[0-3]|[0-1]\d|\d`, candidates in alternation order. -/
def hourParses : Str → List (Nat × Str)
  | [] => []
  | a :: rest =>
    (match a, rest with
     | '2', b :: r2 => if '0' ≤ b ∧ b ≤ '3' then [(20 + digitVal b, r2)] else []
     | '0', b :: r2 => if b.isDigit then [(digitVal b, r2)] else []
     | '1', b :: r2 => if b.isDigit then [(10 + digitVal b, r2)] else []
     | _, _ => []) ++
    (if a.isDigit then [(digitVal a, rest)] else [])

/-- `%M`: `[0-5]\d|\d`, candidates in alternation order. -/
def minuteParses : Str → List (Nat × Str)
  | [] => []
  | a :: rest =>
    (match rest with
     | b :: r2 => if '0' ≤ a ∧ a ≤ '5' ∧ b.isDigit then [(10 * digitVal a + digitVal b, r2)] else []
     | [] => []) ++
    (if a.isDigit then [(digitVal a, rest)] else [])

/-- A literal `-` in the format. -/
def dashParses : Str → List Str
  | '-' :: r => [r]
  | _ => []

/-- A literal `:` in the format. -/
def colonParses : Str → List Str
  | ':' :: r => [r]
  | _ => []

/-- A whitespace in the format (`\s+`): consume one or more whitespace
characters, longest consumption first (greedy with backtracking). -/
def wsParses : Str → List Str
  | [] => []
  | c :: r => if isPySpace c then wsParses r ++ [r] else []

/-- All backtracking parses of the format `%Y-%m-%d`, in regex preference
order. -/
def ymdParses (s : Str) : List ((Nat × Nat × Nat) × Str) :=
  (yearParses s).flatMap fun yr =>
    (dashParses yr.2).flatMap fun r2 =>
      (monthParses r2).flatMap fun mr =>
        (dashParses mr.2).flatMap fun r4 =>
          (dayParses r4).map fun dr => ((yr.1, mr.1, dr.1), dr.2)

/-- All backtracking parses of the format `%H:%M`, in regex preference
order. -/
def hmParses (s : Str) : List ((Nat × Nat) × Str) :=
  (hourParses s).flatMap fun hr =>
    (colonParses hr.2).flatMap fun r2 =>
      (minuteParses r2).map fun mr => ((hr.1, mr.1), mr.2)

/-- All backtracking parses of the format `%Y-%m-%d %H:%M`, in regex
preference order. -/
def ymdhmParses (s : Str) : List ((Nat × Nat × Nat × Nat × Nat) × Str) :=
  (ymdParses s).flatMap fun dr =>
    (wsParses dr.2).flatMap fun r2 =>
      (hmParses r2).map fun tr => ((dr.1.1, dr.1.2.1, dr.1.2.2, tr.1.1, tr.1.2), tr.2)

/-- Gregorian leap year, as in `datetime`. -/
def leapYear (y : Nat) : Bool := y % 4 = 0 && (y % 100 ≠ 0 || y % 400 = 0)

/-- Days in a month, as validated by the `datetime` constructor. -/
def daysInMonth (y m : Nat) : Nat :=
  if m = 2 then (if leapYear y then 29 else 28)
  else if m = 4 ∨ m = 6 ∨ m = 9 ∨ m = 11 then 30 else 31

/-- The extra validation done by the `datetime` constructor after the regex
match: the year is at least `MINYEAR = 1` (at most 9999 is forced by the
four-digit `%Y`) and the day fits the month (the regex already forces
`1 ≤ m ≤ 12` and `1 ≤ d ≤ 31`). -/
def dateOK (y m d : Nat) : Bool := 1 ≤ y && d ≤ daysInMonth y m

/-- `datetime.strptime(s, "%Y-%m-%d")`, returning `(year, month, day)`:
take the regex engine's first match, require full consumption of the
input, then calendar validity. -/
def strptimeDate (s : Str) : Option (Nat × Nat × Nat) :=
  match (ymdParses s).head? with
  | some ((y, m, d), rest) =>
    if rest = [] ∧ dateOK y m d then some (y, m, d) else none
  | none => none

/-- `datetime.strptime(s, "%H:%M")`, returning `(hour, minute)` (the regex
classes already force `hour ≤ 23` and `minute ≤ 59`). -/
def strptimeTime (s : Str) : Option (Nat × Nat) :=
  match (hmParses s).head? with
  | some ((h, mi), rest) => if rest = [] then some (h, mi) else none
  | none => none

/-- `datetime.strptime(s, "%Y-%m-%d %H:%M")`. -/
def strptimeDateTime (s : Str) : Option (Nat × Nat × Nat × Nat × Nat) :=
  match (ymdhmParses s).head? with
  | some ((y, m, d, h, mi), rest) =>
    if rest = [] ∧ dateOK y m d then some (y, m, d, h, mi) else none
  | none => none

/-- ASCII digit character of `n` (`n < 10` at every use site below). -/
def toDigit (n : Nat) : Char := Char.ofNat (48 + n)

/-- Two-digit zero-padded rendering (`%m`, `%d`, `%H`, `%M` in `strftime`;
every value formatted below is at most two digits wide). -/
def fmt2 (n : Nat) : Str := [toDigit (n / 10 % 10), toDigit (n % 10)]

/-- Four-digit zero-padded rendering (`%Y` in `strftime` and the year field
of `isoformat`; every year below is a four-digit regex match, hence at most
9999). -/
def fmt4 (n : Nat) : Str :=
  [toDigit (n / 1000 % 10), toDigit (n / 100 % 10), toDigit (n / 10 % 10), toDigit (n % 10)]

/-- `dt.strftime("%Y-%m-%d")`. -/
def fmtDate (y m d : Nat) : Str := fmt4 y ++ '-' :: (fmt2 m ++ '-' :: fmt2 d)

/-- `dt.strftime("%H:%M")`. -/
def fmtTime (h mi : Nat) : Str := fmt2 h ++ ':' :: fmt2 mi

/-- The JSON object the interpretation step must return: keys `date`,
`time` and optional `confidence` (`data.get("confidence", "low")`). -/
structure InterpResp where
  date : Str
  time : Str
  confidence : Option Str
deriving DecidableEq

/-- A raised Python exception (only the classes relevant to the modelled
paths are distinguished). -/
inductive PyErr where
  | valueError
  | keyError
  | runtimeError
deriving DecidableEq

/-- The dictionary returned by `normalize_visit_datetime_pst`. -/
structure NormalizedDateTime where
  visit_date : Str
  visit_time : Str
  visit_datetime_iso : Str
  timezone : Str
  confidence : Str
deriving DecidableEq

/-- `normalize_visit_datetime_pst` (`ai_utils.py`, lines 112-170), from the
interpretation step's parsed JSON onwards: hard-validate `data["date"]`
against `%Y-%m-%d` and `data["time"]` against `%H:%M` (each failure is a
propagated `ValueError`), re-parse the combined string, and derive the
output fields from the combined instant.  `utcoff y m d h mi` injects the
`America/Los_Angeles` UTC-offset suffix that `dt.isoformat()` appends
(owned by the timezone database, hence a parameter; it never contains the
fields themselves). -/
def normalize_visit_datetime_pst (utcoff : Nat → Nat → Nat → Nat → Nat → Str)
    (data : InterpResp) : Except PyErr NormalizedDateTime :=
  match strptimeDate data.date with
  | none => .error .valueError
  | some _ =>
    match strptimeTime data.time with
    | none => .error .valueError
    | some _ =>
      match strptimeDateTime (data.date ++ ' ' :: data.time) with
      | none => .error .valueError
      | some (y, m, d, h, mi) =>
        .ok { visit_date := fmtDate y m d
            , visit_time := fmtTime h mi
            , visit_datetime_iso :=
                fmtDate y m d ++ 'T' :: (fmtTime h mi ++ (':' :: '0' :: '0' :: utcoff y m d h mi))
            , timezone := "America/Los_Angeles".toList
            , confidence := data.confidence.getD "low".toList }

/-- The strict zero-padded textual format `YYYY-MM-DD`, modelled from the
spec's words (ten characters, digits in the year/month/day positions,
dashes between): the format the spec says the date is validated against. -/
def strictFormatYMD : Str → Bool
  | [y1, y2, y3, y4, c1, m1, m2, c2, d1, d2] =>
    y1.isDigit && y2.isDigit && y3.isDigit && y4.isDigit &&
    c1 = '-' && m1.isDigit && m2.isDigit && c2 = '-' && d1.isDigit && d2.isDigit
  | _ => false

/-- The strict zero-padded textual format `HH:MM`, modelled from the spec's
words. -/
def strictFormatHM : Str → Bool
  | [h1, h2, c, m1, m2] => h1.isDigit && h2.isDigit && c = ':' && m1.isDigit && m2.isDigit
  | _ => false

-- Concrete behaviour checks of the strptime model and the flattening
-- (leniency about zero padding, strictness about leftovers and calendar
-- validity, newline collapse and empty-entry dropping).
example : strptimeDate "2026-01-02".toList = some (2026, 1, 2) := by decide
example : strptimeDate "2026-1-2".toList = some (2026, 1, 2) := by decide
example : strptimeDate "26-01-02".toList = none := by decide
example : strptimeDate "2026-02-30".toList = none := by decide
example : strptimeDate "2026-01-02x".toList = none := by decide
example : strptimeTime "7:5".toList = some (7, 5) := by decide
example : strptimeTime "23:59".toList = some (23, 59) := by decide
example : strptimeTime "24:00".toList = none := by decide
example : strptimeDateTime "2026-1-2 7:05".toList = some (2026, 1, 2, 7, 5) := by decide
example :
    normalize_visit_datetime_pst (fun _ _ _ _ _ => "-08:00".toList)
      ⟨"2026-1-2".toList, "18:00".toList, some "high".toList⟩ =
    .ok { visit_date := "2026-01-02".toList, visit_time := "18:00".toList
        , visit_datetime_iso := "2026-01-02T18:00:00-08:00".toList
        , timezone := "America/Los_Angeles".toList, confidence := "high".toList } := rfl
example :
    transcript_to_single_line
      [⟨"user".toList, "Quiero una cita\nhoy ".toList⟩, ⟨"assistant".toList, [] ⟩,
       ⟨"assistant".toList, "Claro".toList⟩] =
    "USER: Quiero una cita hoy | ASSISTANT: Claro".toList := rfl

/-! ## Session state and the booking tool (`actions.py`) -/

/-- The `confirmed_visit` dictionary.  A field holding `none` models a
missing key (looking it up raises `KeyError`); `actions.py` always stores
all four keys. -/
structure VisitDict where
  name : Option Str
  purpose : Option Str
  visit_date : Option Str
  visit_time : Option Str
deriving DecidableEq

/-- Python truthiness of the `confirmed_visit` dictionary: a dictionary is
truthy iff non-empty (restricted to the four keys this system ever
stores). -/
def VisitDict.truthy (v : VisitDict) : Bool :=
  v.name.isSome || v.purpose.isSome || v.visit_date.isSome || v.visit_time.isSome

/-- `context.session.userdata` / `session_userdata`: the mutable per-call
session dictionary; `confirmed_visit = none` models an absent or `None`
entry. -/
structure SessionData where
  call_id : Str
  confirmed_visit : Option VisitDict
deriving DecidableEq

/-- Reply returned on a non-`high` confidence normalization. -/
def msgClarify : Str := "No quedó clara la fecha u hora. ¿Me la puedes confirmar?".toList

/-- Reply returned when the simulated availability is negative (dead code:
`available` is the constant `True`). -/
def msgNotAvailable : Str := "Ese horario no está disponible. ¿Quieres intentar con otro?".toList

/-- The confirmation reply
`f"Perfecto {name}. Tu visita quedó agendada para el {..} a las {..}."`. -/
def msgConfirm (name visit_date visit_time : Str) : Str :=
  "Perfecto ".toList ++ name ++ ". Tu visita quedó agendada para el ".toList ++
    visit_date ++ " a las ".toList ++ visit_time ++ ".".toList

/-- `agendar_cita_disponibilidad` (`actions.py`, lines 44-104), from the
interpretation step's response onwards: normalize the raw date/time (an
exception from normalization propagates out of the tool), gate on
`confidence == "high"`, check the simulated availability, then store
`confirmed_visit` in the session and confirm.  Returns the updated session
(the tool's only state effect) together with the reply string. -/
def agendar_cita_disponibilidad (utcoff : Nat → Nat → Nat → Nat → Nat → Str)
    (session : SessionData) (name visit_date visit_time purpose : Str)
    (data : InterpResp) : Except PyErr (SessionData × Str) :=
  match normalize_visit_datetime_pst utcoff data with
  | .error e => .error e
  | .ok normalized =>
    if normalized.confidence ≠ "high".toList then
      .ok (session, msgClarify)
    else
      let available := true
      if available = false then
        .ok (session, msgNotAvailable)
      else
        let confirmed_visit : VisitDict :=
          { name := some name, purpose := some purpose
          , visit_date := some normalized.visit_date
          , visit_time := some normalized.visit_time }
        .ok ({ session with confirmed_visit := some confirmed_visit },
             msgConfirm name normalized.visit_date normalized.visit_time)

/-! ## The after-call pipeline (`after_call_handler.py`)

The pipeline's external effects are recorded as an event trace.  The two
sinks and the two LLM calls can each fail arbitrarily; their behaviour is
injected through `Deps`.  Timestamps are exact microsecond counts (the
resolution of `datetime`); `Deps.fmtTs` injects
`datetime.strftime("%Y-%m-%d %H:%M:%S")` in the fixed timezone (owned by
the timezone database). -/

/-- The `call_row` dictionary built at lines 78-86. -/
structure CallRow where
  created_at_pst : Str
  call_started_at : Str
  call_ended_at : Str
  call_duration_seconds : Int
  transcript : Str
  summary : Option Str
  call_id : Str
deriving DecidableEq

/-- The `visit_row` dictionary built at lines 113-120. -/
structure VisitRow where
  created_at_pst : Str
  name : Str
  purpose : Str
  visit_date : Str
  visit_time : Str
  call_id : Str
deriving DecidableEq

/-- A record handed to a sink: a call record or a booking record. -/
inductive Row where
  | call (r : CallRow)
  | visit (r : VisitRow)
deriving DecidableEq

/-- One observable effect of a pipeline run, in execution order:
* `localAppend p r` — the CSV append attempt of `r` to file `p`;
* `csvLog p ok` — the log line ending `append_csv` (`true` models
  `logger.info("CSV appended: ...")`, `false` models
  `logger.exception("Failed writing CSV: ...")`);
* `remoteAppend s r` — the `append_row_to_sheet` dispatch of `r` to sheet
  section `s` (via `asyncio.to_thread`);
* `sheetLog s ok` — the log line recording the awaited remote outcome
  (`true` models `logger.info("Google Sheets append success ...")`,
  `false` models `logger.exception("Google Sheets append failed ...")`);
* `logInfo` / `logError` — the other logger lines, by format string. -/
inductive Event where
  | localAppend (path : Str) (row : Row)
  | csvLog (path : Str) (ok : Bool)
  | remoteAppend (sheet : Str) (row : Row)
  | sheetLog (sheet : Str) (ok : Bool)
  | logInfo (msg : Str)
  | logError (msg : Str)
deriving DecidableEq

/-- `True` exactly on the two booking-record append events. -/
def Event.isVisitAppend : Event → Bool
  | .localAppend _ (.visit _) => true
  | .remoteAppend _ (.visit _) => true
  | _ => false

/-- The injected behaviour of the pipeline's collaborators for one run. -/
structure Deps where
  /-- `datetime.now(tz=PST)` at the start of the run, in microseconds. -/
  now_us : Int
  /-- `dt.strftime("%Y-%m-%d %H:%M:%S")` in the fixed timezone. -/
  fmtTs : Int → Str
  /-- `summarize_transcript`: may throw. -/
  summarize : List TranscriptItem → Except PyErr Str
  /-- The raw local CSV write (`path.open` / `writer.writerow`): may throw. -/
  localSink : Str → Row → Except PyErr Unit
  /-- The remote `append_row_to_sheet` call: may throw or time out. -/
  remoteSink : Str → Row → Except PyErr Unit

def callsCsvName : Str := "calls_log.csv".toList
def scheduleCsvName : Str := "scheduled_visits.csv".toList
def llamadasSheet : Str := "Llamadas".toList
def citasSheet : Str := "Citas".toList
def msgStarted : Str := "After-call handler started call_id=%s".toList
def msgSumFailed : Str := "Transcript summarization failed".toList
def msgCompleted : Str := "After-call handler completed call_id=%s".toList
def msgCrashed : Str := "After-call handler crashed (should never happen)".toList

/-- `int((call_ended - call_started_at).total_seconds())` on an exact
microsecond difference: `total_seconds()` divides by `10**6` and `int()`
truncates toward zero (modelled exactly; the `float` involved is exact at
every magnitude relevant to a call duration). -/
def durationSeconds (started_us ended_us : Int) : Int :=
  let us := ended_us - started_us
  if 0 ≤ us then Int.ofNat (us.toNat / 1000000) else -Int.ofNat ((-us).toNat / 1000000)

/-- `append_csv` (`after_call_handler.py`, lines 39-49): attempt the write,
then log; any exception is caught and swallowed inside. -/
def append_csv (deps : Deps) (path : Str) (row : Row) : List Event :=
  [Event.localAppend path row, Event.csvLog path (deps.localSink path row).isOk]

/-- The summarization step (lines 71-76): skipped on a falsy (empty)
transcript; an exception is caught and logged, leaving `summary = None`. -/
def sumEvents (deps : Deps) (transcript : List TranscriptItem) : List Event :=
  if transcript.isEmpty then []
  else match deps.summarize transcript with
    | .ok _ => []
    | .error _ => [Event.logError msgSumFailed]

/-- The summary value after the summarization step. -/
def summaryOf (deps : Deps) (transcript : List TranscriptItem) : Option Str :=
  if transcript.isEmpty then none else (deps.summarize transcript).toOption

/-- The `call_row` built at lines 78-86. -/
def buildCallRow (deps : Deps) (call_id : Str) (started_us : Int)
    (transcript : List TranscriptItem) : CallRow :=
  { created_at_pst := deps.fmtTs deps.now_us
  , call_started_at := deps.fmtTs started_us
  , call_ended_at := deps.fmtTs deps.now_us
  , call_duration_seconds := durationSeconds started_us deps.now_us
  , transcript := transcript_to_single_line transcript
  , summary := summaryOf deps transcript
  , call_id := call_id }

/-- Lines 63-105: the start log, summarization, the local CSV append of the
call record, and the awaited remote append of the call record with its
outcome log.  This part of the run is identical in every branch. -/
def callPhaseEvents (deps : Deps) (call_id : Str) (started_us : Int)
    (transcript : List TranscriptItem) : List Event :=
  [Event.logInfo msgStarted] ++ sumEvents deps transcript ++
    append_csv deps callsCsvName (Row.call (buildCallRow deps call_id started_us transcript)) ++
    [Event.remoteAppend llamadasSheet (Row.call (buildCallRow deps call_id started_us transcript)),
     Event.sheetLog llamadasSheet
       (deps.remoteSink llamadasSheet (Row.call (buildCallRow deps call_id started_us transcript))).isOk]

/-- Lines 110-135: the booking branch and the completion log.  Looking up a
missing key in a truthy `confirmed_visit` raises `KeyError` before any
booking append (the second component); on the complete dictionary the
booking record is appended locally, then dispatched remotely (awaited, with
its outcome log), then the completion log is emitted. -/
def visitPhase (deps : Deps) (call_id : Str) (created_at : Str)
    (confirmed_visit : Option VisitDict) : List Event × Option PyErr :=
  match confirmed_visit with
  | none => ([Event.logInfo msgCompleted], none)
  | some v =>
    if v.truthy then
      match v.name, v.purpose, v.visit_date, v.visit_time with
      | some n, some p, some d, some t =>
        let visit_row : VisitRow :=
          { created_at_pst := created_at, name := n, purpose := p
          , visit_date := d, visit_time := t, call_id := call_id }
        (append_csv deps scheduleCsvName (Row.visit visit_row) ++
          [Event.remoteAppend citasSheet (Row.visit visit_row),
           Event.sheetLog citasSheet (deps.remoteSink citasSheet (Row.visit visit_row)).isOk,
           Event.logInfo msgCompleted], none)
      | _, _, _, _ => ([], some PyErr.keyError)
    else ([Event.logInfo msgCompleted], none)

/-- The body of `handle_after_call` inside the outer `try` (lines 62-135):
the event trace produced, and the exception reaching the outer boundary,
if any. -/
def afterCallBody (deps : Deps) (call_id : Str) (started_us : Int)
    (transcript : List TranscriptItem) (session_userdata : SessionData) :
    List Event × Option PyErr :=
  let cp := callPhaseEvents deps call_id started_us transcript
  let vp := visitPhase deps call_id
    (buildCallRow deps call_id started_us transcript).created_at_pst
    session_userdata.confirmed_visit
  (cp ++ vp.1, vp.2)

/-- `handle_after_call` (lines 52-138) as a raise-or-return computation: an
`Except.error` would model an exception escaping to the caller; the outer
`try/except` (lines 62, 137-138) converts every exception from the body
into a logged event and a normal return. -/
def handle_after_call_run (deps : Deps) (call_id : Str) (started_us : Int)
    (transcript : List TranscriptItem) (session_userdata : SessionData) :
    Except PyErr (List Event) :=
  match afterCallBody deps call_id started_us transcript session_userdata with
  | (ev, none) => .ok ev
  | (ev, some _) => .ok (ev ++ [Event.logError msgCrashed])

/-- The event trace of one `handle_after_call` run. -/
def handle_after_call (deps : Deps) (call_id : Str) (started_us : Int)
    (transcript : List TranscriptItem) (session_userdata : SessionData) :
    List Event :=
  match handle_after_call_run deps call_id started_us transcript session_userdata with
  | .ok ev => ev
  | .error _ => []

/-! ## Verified properties -/

/-- C1: for every input and every behaviour of the injected dependencies —
including runs in which the local sink write throws, the remote sink call
fails or times out, and summarization throws, all at once — the
`handle_after_call` pipeline returns normally: no exception escapes the
outer boundary. -/
theorem handle_after_call_never_raises (deps : Deps) (call_id : Str)
    (started_us : Int) (transcript : List TranscriptItem) (ud : SessionData) :
    (handle_after_call_run deps call_id started_us transcript ud).isOk = true := by
  unfold handle_after_call_run
  rcases afterCallBody deps call_id started_us transcript ud with ⟨ev, _ | e⟩ <;> rfl

/-- C4, counterexample: the pipeline's duration is not the floored
difference.  At a clock-skewed run ending half a second before it started,
`int(td.total_seconds())` truncates toward zero and yields `0`, while the
floor of `-0.5` seconds is `-1`. -/
theorem duration_not_floored_counterexample :
    durationSeconds 0 (-500000) ≠ Int.fdiv ((-500000 : Int) - 0) 1000000 := by decide

/-- C4, amended: `duration_seconds` is the difference in seconds truncated
toward zero (Python `int()`), which agrees with flooring exactly when the
difference is nonnegative; clock-skewed differences of at least one second
still pass through as negative integers (sub-second skew collapses to
`0`). -/
theorem duration_truncates_toward_zero (started_us ended_us : Int) :
    (0 ≤ ended_us - started_us →
      durationSeconds started_us ended_us = Int.fdiv (ended_us - started_us) 1000000) ∧
    (ended_us - started_us ≤ -1000000 → durationSeconds started_us ended_us < 0) := by
  unfold durationSeconds
  generalize ended_us - started_us = us
  constructor
  · intro h
    obtain ⟨n, rfl⟩ := Int.eq_ofNat_of_zero_le h
    rw [if_pos h, Int.toNat_natCast]
    exact_mod_cast Int.ofNat_fdiv n 1000000
  · intro h
    rw [if_neg (by omega)]
    have h1 : 1000000 ≤ (-us).toNat := by omega
    have h2 : 0 < (-us).toNat / 1000000 := Nat.div_pos h1 (by norm_num)
    have h3 : (0 : Int) < Int.ofNat ((-us).toNat / 1000000) := Int.ofNat_lt.mpr h2
    omega

/-- C4, witness for `duration_truncates_toward_zero` at concrete inputs. -/
theorem duration_truncates_toward_zero_witness :
    durationSeconds 0 2500000 = Int.fdiv ((2500000 : Int) - 0) 1000000 ∧
    durationSeconds 5000000 0 < 0 :=
  ⟨(duration_truncates_toward_zero 0 2500000).1 (by decide),
   (duration_truncates_toward_zero 5000000 0).2 (by decide)⟩

/-- C6: every accepted interpretation-step response yields a result whose
`visit_date`, `visit_time` and `visit_datetime_iso` are derived from the
one combined instant and are mutually consistent: re-reading the date part
(first ten characters) and the time part (characters eleven to fifteen) of
the ISO datetime gives back exactly `visit_date` and `visit_time`. -/
theorem normalize_fields_consistent (utcoff : Nat → Nat → Nat → Nat → Nat → Str)
    (data : InterpResp) (r : NormalizedDateTime)
    (h : normalize_visit_datetime_pst utcoff data = .ok r) :
    r.visit_datetime_iso.take 10 = r.visit_date ∧
    (r.visit_datetime_iso.drop 11).take 5 = r.visit_time := by
  unfold normalize_visit_datetime_pst at h
  split at h
  · cases h
  · split at h
    · cases h
    · split at h
      · cases h
      · cases h
        exact ⟨rfl, rfl⟩

/-- C6, witness for `normalize_fields_consistent` at a concrete accepted
response. -/
theorem normalize_fields_consistent_witness :
    ("2026-02-14T18:00:00-08:00".toList).take 10 = "2026-02-14".toList ∧
    (("2026-02-14T18:00:00-08:00".toList).drop 11).take 5 = "18:00".toList :=
  normalize_fields_consistent (fun _ _ _ _ _ => "-08:00".toList)
    ⟨"2026-02-14".toList, "18:00".toList, none⟩
    { visit_date := "2026-02-14".toList, visit_time := "18:00".toList
    , visit_datetime_iso := "2026-02-14T18:00:00-08:00".toList
    , timezone := "America/Los_Angeles".toList, confidence := "low".toList }
    rfl

/-- C8: on every accepted response the resolver returns the confidence
exactly as provided by the interpretation step, never upgrading or
downgrading it; when the optional field is absent it is reported as
`"low"` (the source's `data.get("confidence", "low")`). -/
theorem normalize_confidence_passthrough (utcoff : Nat → Nat → Nat → Nat → Nat → Str)
    (data : InterpResp) (r : NormalizedDateTime)
    (h : normalize_visit_datetime_pst utcoff data = .ok r) :
    r.confidence = data.confidence.getD "low".toList ∧
    ∀ c, data.confidence = some c → r.confidence = c := by
  unfold normalize_visit_datetime_pst at h
  split at h
  · cases h
  · split at h
    · cases h
    · split at h
      · cases h
      · cases h
        refine ⟨rfl, fun c hc => ?_⟩
        simp [hc]

/-- C8, witness for `normalize_confidence_passthrough` at a concrete
response carrying `confidence = "medium"`. -/
theorem normalize_confidence_passthrough_witness :
    "medium".toList = (some "medium".toList).getD "low".toList :=
  (normalize_confidence_passthrough (fun _ _ _ _ _ => "-08:00".toList)
    ⟨"2026-02-14".toList, "18:00".toList, some "medium".toList⟩
    { visit_date := "2026-02-14".toList, visit_time := "18:00".toList
    , visit_datetime_iso := "2026-02-14T18:00:00-08:00".toList
    , timezone := "America/Los_Angeles".toList, confidence := "medium".toList }
    rfl).1

/-- C2: whenever the normalized result's confidence is anything other than
`"high"`, the booking tool stores nothing in the session (its state is
returned unchanged, so no booking record exists for the attempt) and
replies with the clarification request. -/
theorem agendar_low_confidence_no_booking (utcoff : Nat → Nat → Nat → Nat → Nat → Str)
    (session : SessionData) (name visit_date visit_time purpose : Str)
    (data : InterpResp) (norm : NormalizedDateTime)
    (hok : normalize_visit_datetime_pst utcoff data = .ok norm)
    (hconf : norm.confidence ≠ "high".toList) :
    agendar_cita_disponibilidad utcoff session name visit_date visit_time purpose data =
      .ok (session, msgClarify) := by
  simp only [agendar_cita_disponibilidad, hok]
  rw [if_pos hconf]

/-- C2, witness for `agendar_low_confidence_no_booking`: a concrete
well-formed date/time with `confidence = "medium"` leaves the session
untouched and asks for confirmation. -/
theorem agendar_low_confidence_no_booking_witness :
    agendar_cita_disponibilidad (fun _ _ _ _ _ => "-08:00".toList)
      ⟨"call-1".toList, none⟩ "Ana".toList "mañana".toList "6 pm".toList "boda".toList
      ⟨"2026-02-14".toList, "18:00".toList, some "medium".toList⟩ =
      .ok (⟨"call-1".toList, none⟩, msgClarify) :=
  agendar_low_confidence_no_booking (fun _ _ _ _ _ => "-08:00".toList)
    ⟨"call-1".toList, none⟩ "Ana".toList "mañana".toList "6 pm".toList "boda".toList
    ⟨"2026-02-14".toList, "18:00".toList, some "medium".toList⟩
    { visit_date := "2026-02-14".toList, visit_time := "18:00".toList
    , visit_datetime_iso := "2026-02-14T18:00:00-08:00".toList
    , timezone := "America/Los_Angeles".toList, confidence := "medium".toList }
    rfl (by decide)

/-- C3, counterexample: the claim quantifies over every response whose date
fails the strict `YYYY-MM-DD` format, but `"2026-1-2"` fails the strict
zero-padded format while `strptime`'s lenient directive classes accept it,
so `resolve` succeeds (returning the re-padded `"2026-01-02"`) instead of
failing. -/
theorem normalize_strict_format_counterexample :
    strictFormatYMD "2026-1-2".toList = false ∧
    (normalize_visit_datetime_pst (fun _ _ _ _ _ => "-08:00".toList)
      ⟨"2026-1-2".toList, "18:00".toList, some "high".toList⟩).isOk = true :=
  ⟨rfl, rfl⟩

/-- C3, amended: every response whose date value is rejected by the
`%Y-%m-%d` parse (four-digit year, possibly unpadded month/day, full
consumption, calendar-valid) or whose time value is rejected by the
`%H:%M` parse makes `resolve` fail with a propagated validation error,
producing no `NormalizedDateTime` and never falling back to a guessed or
low-confidence result. -/
theorem normalize_parse_failure_propagates (utcoff : Nat → Nat → Nat → Nat → Nat → Str)
    (data : InterpResp)
    (h : strptimeDate data.date = none ∨ strptimeTime data.time = none) :
    normalize_visit_datetime_pst utcoff data = .error PyErr.valueError := by
  unfold normalize_visit_datetime_pst
  rcases h with h | h
  · simp [h]
  · cases strptimeDate data.date <;> simp [h]

/-- C3, witness for `normalize_parse_failure_propagates` at a concrete
malformed date. -/
theorem normalize_parse_failure_propagates_witness :
    normalize_visit_datetime_pst (fun _ _ _ _ _ => "-08:00".toList)
      ⟨"mañana".toList, "18:00".toList, some "high".toList⟩ = .error PyErr.valueError :=
  normalize_parse_failure_propagates _ _ (Or.inl (by decide))

/-! ## Helper lemmas about the flattening -/

/-- A rendered segment always contains at least the `": "` part. -/
theorem renderItem_ne_nil (it : TranscriptItem) : renderItem it ≠ [] := by
  unfold renderItem
  cases pyUpper it.role <;> simp

/-- Joining the segments of a non-empty item list is non-empty. -/
theorem sepJoin_render_cons_ne_nil (sep : Str) (a : TranscriptItem)
    (l : List TranscriptItem) : sepJoin sep ((a :: l).map renderItem) ≠ [] := by
  cases l with
  | nil => simpa [sepJoin] using renderItem_ne_nil a
  | cons b l2 =>
    simp only [List.map_cons, sepJoin]
    intro h
    rcases List.append_eq_nil.mp h with ⟨h1, -⟩
    rcases List.append_eq_nil.mp h1 with ⟨h2, -⟩
    exact renderItem_ne_nil a h2

/-- The flattening computes exactly the recursive description `flattenSpec`:
empty-content entries are dropped, the rest keep their relative order, and
kept segments are separated by `" | "` with no empty segments. -/
theorem flatten_eq_flattenSpec (T : List TranscriptItem) :
    transcript_to_single_line T = flattenSpec T := by
  induction T with
  | nil => rfl
  | cons it rest ih =>
    unfold transcript_to_single_line flattenSpec
    by_cases hc : it.content.isEmpty
    · rw [List.filter_cons, if_neg (by simp [hc])]
      rw [if_pos hc]
      exact ih
    · rw [List.filter_cons, if_pos (by simp [hc])]
      rw [if_neg hc]
      cases hf : rest.filter (fun it => !it.content.isEmpty) with
      | nil =>
        have hrest : flattenSpec rest = [] := by
          rw [← ih]; unfold transcript_to_single_line; rw [hf]; rfl
        rw [if_pos (by simp [hrest])]
        rfl
      | cons b l2 =>
        have hrest : flattenSpec rest = sepJoin (" | ".toList) ((b :: l2).map renderItem) := by
          rw [← ih]; unfold transcript_to_single_line; rw [hf]
        rw [if_neg (by rw [hrest]; simpa using sepJoin_render_cons_ne_nil _ b l2)]
        rw [hrest]
        rfl

/-- A string without newlines is unchanged by the newline replacement. -/
theorem replaceNewlines_eq_self {s : Str} (h : ('\n' : Char) ∉ s) :
    replaceNewlines s = s := by
  induction s with
  | nil => rfl
  | cons a l ih =>
    rw [List.mem_cons, not_or] at h
    show (if a = '\n' then ' ' else a) :: replaceNewlines l = a :: l
    rw [if_neg (fun hh => h.1 hh.symm), ih h.2]

/-- The newline replacement leaves no newline behind. -/
theorem newline_not_mem_replaceNewlines (s : Str) :
    ('\n' : Char) ∉ replaceNewlines s := by
  unfold replaceNewlines
  intro hmem
  rw [List.mem_map] at hmem
  obtain ⟨x, -, hfx⟩ := hmem
  by_cases hx : x = '\n'
  · rw [if_pos hx] at hfx
    exact absurd hfx (by decide)
  · rw [if_neg hx] at hfx
    exact hx hfx

/-- `pyStripFront` removes a prefix of the string. -/
theorem pyStripFront_decomp (s : Str) : ∃ pre, s = pre ++ pyStripFront s :=
  ⟨s.takeWhile isPySpace, (List.takeWhile_append_dropWhile (p := isPySpace) (l := s)).symm⟩

/-- `pyStripEnd` removes a suffix of the string. -/
theorem pyStripEnd_decomp (s : Str) : ∃ post, s = pyStripEnd s ++ post := by
  refine ⟨(s.reverse.takeWhile isPySpace).reverse, ?_⟩
  unfold pyStripEnd
  conv_lhs => rw [← List.reverse_reverse s,
    ← List.takeWhile_append_dropWhile (p := isPySpace) (l := s.reverse)]
  rw [List.reverse_append]

/-- Every character of the stripped string occurs in the original. -/
theorem mem_of_mem_pyStrip {x : Char} {s : Str} (h : x ∈ pyStrip s) : x ∈ s := by
  obtain ⟨post, hpost⟩ := pyStripEnd_decomp (pyStripFront s)
  obtain ⟨pre, hpre⟩ := pyStripFront_decomp s
  rw [hpre, hpost]
  simp only [List.mem_append]
  exact Or.inr (Or.inl h)

/-- The head of `dropWhile p` never satisfies `p`. -/
theorem dropWhile_head_not (p : Char → Bool) :
    ∀ (l : Str) (a : Char), (l.dropWhile p).head? = some a → p a = false := by
  intro l
  induction l with
  | nil => intro a h; cases h
  | cons b l ih =>
    intro a h
    by_cases hb : p b
    · rw [List.dropWhile_cons_of_pos hb] at h
      exact ih a h
    · rw [List.dropWhile_cons_of_neg hb] at h
      rw [List.head?_cons, Option.some_inj] at h
      rw [← h]
      exact Bool.eq_false_iff.mpr hb

/-- `dropWhile p` is the identity when the head does not satisfy `p`. -/
theorem dropWhile_eq_self_of_head (p : Char → Bool) (l : Str)
    (h : ∀ a, l.head? = some a → p a = false) : l.dropWhile p = l := by
  cases l with
  | nil => rfl
  | cons b t => exact List.dropWhile_cons_of_neg (by simp [h b rfl])

/-- Removing leading whitespace twice equals doing it once. -/
theorem dropWhile_idem (p : Char → Bool) (l : Str) :
    (l.dropWhile p).dropWhile p = l.dropWhile p :=
  dropWhile_eq_self_of_head p _ (dropWhile_head_not p l)

/-- `pyStripEnd` is idempotent. -/
theorem pyStripEnd_idem (s : Str) : pyStripEnd (pyStripEnd s) = pyStripEnd s := by
  unfold pyStripEnd
  rw [List.reverse_reverse, dropWhile_idem]

/-- The head of a fully stripped string is not whitespace. -/
theorem pyStrip_head_not (s : Str) (a : Char) (h : (pyStrip s).head? = some a) :
    isPySpace a = false := by
  obtain ⟨post, hpost⟩ := pyStripEnd_decomp (pyStripFront s)
  have hhead : (pyStripFront s).head? = some a := by
    cases hA : pyStrip s with
    | nil => rw [hA] at h; cases h
    | cons b t =>
      rw [hA] at h
      rw [List.head?_cons, Option.some_inj] at h
      have : pyStripEnd (pyStripFront s) = b :: t := hA
      rw [hpost, this, ← h]
      rfl
  exact dropWhile_head_not isPySpace s a hhead

/-- Stripping the front of a fully stripped string changes nothing. -/
theorem pyStripFront_pyStrip (s : Str) : pyStripFront (pyStrip s) = pyStrip s :=
  dropWhile_eq_self_of_head isPySpace _ (pyStrip_head_not s)

/-- `str.strip()` is idempotent. -/
theorem pyStrip_idem (s : Str) : pyStrip (pyStrip s) = pyStrip s := by
  show pyStripEnd (pyStripFront (pyStrip s)) = pyStrip s
  rw [pyStripFront_pyStrip]
  show pyStripEnd (pyStripEnd (pyStripFront s)) = pyStrip s
  rw [pyStripEnd_idem]
  rfl

/-- On newline-free content the per-entry transformation is just the strip. -/
theorem normContent_of_no_newline {s : Str} (h : ('\n' : Char) ∉ s) :
    normContent s = pyStrip s := by
  unfold normContent
  rw [replaceNewlines_eq_self h]

/-- The per-entry content transformation is idempotent on newline-free
content. -/
theorem normContent_idem {s : Str} (h : ('\n' : Char) ∉ s) :
    normContent (normContent s) = normContent s := by
  rw [normContent_of_no_newline h,
    normContent_of_no_newline (fun hm => h (mem_of_mem_pyStrip hm)), pyStrip_idem]

/-- Rendering an already-normalized entry gives the same segment, for
newline-free content. -/
theorem renderItem_normItem {it : TranscriptItem} (h : ('\n' : Char) ∉ it.content) :
    renderItem (normItem it) = renderItem it := by
  unfold renderItem normItem
  show pyUpper it.role ++ (':' :: ' ' :: normContent (normContent it.content)) = _
  rw [normContent_idem h]

/-- Normalization preserves which entries are kept, for newline-free
content with no whitespace-only entries. -/
theorem normItem_keep {it : TranscriptItem} (h1 : ('\n' : Char) ∉ it.content)
    (h2 : pyStrip it.content = [] → it.content = []) :
    (normItem it).content.isEmpty = it.content.isEmpty := by
  show (normContent it.content).isEmpty = it.content.isEmpty
  rw [normContent_of_no_newline h1]
  cases hc : it.content with
  | nil => rfl
  | cons a l =>
    cases hps : pyStrip (a :: l) with
    | nil =>
      have h3 : it.content = [] := h2 (by rw [hc, hps])
      rw [hc] at h3
      cases h3
    | cons b t => rfl

/-- Re-flattening a transcript whose contents were already passed through
the flattening transformation changes nothing, provided contents are
newline-free and no content is whitespace-only. -/
theorem flatten_map_normItem (T : List TranscriptItem)
    (h1 : ∀ it ∈ T, ('\n' : Char) ∉ it.content)
    (h2 : ∀ it ∈ T, pyStrip it.content = [] → it.content = []) :
    transcript_to_single_line (T.map normItem) = transcript_to_single_line T := by
  unfold transcript_to_single_line
  congr 1
  induction T with
  | nil => rfl
  | cons it rest ih =>
    have ih' := ih (fun x hx => h1 x (List.mem_cons_of_mem it hx))
      (fun x hx => h2 x (List.mem_cons_of_mem it hx))
    have hk := normItem_keep (h1 it (List.mem_cons_self it rest))
      (h2 it (List.mem_cons_self it rest))
    by_cases hc : it.content.isEmpty
    · rw [List.map_cons, List.filter_cons, List.filter_cons]
      rw [if_neg (by simp [hk, hc]), if_neg (by simp [hc])]
      exact ih'
    · rw [List.map_cons, List.filter_cons, List.filter_cons]
      rw [if_pos (by simp [hk, hc]), if_pos (by simp [hc])]
      rw [List.map_cons, List.map_cons, ih',
        renderItem_normItem (h1 it (List.mem_cons_self it rest))]

/-- C5, counterexample: re-flattening is not idempotent on every
newline-free input.  The claim, read over all transcripts with
newline-free contents, fails at the entry whose content is a single
space: it is truthy (kept, rendered as `"USER: "`), but after one pass
its content has been stripped to the empty string, so a second pass
drops it. -/
theorem flatten_reflatten_counterexample :
    ¬ (∀ T : List TranscriptItem, (∀ it ∈ T, ('\n' : Char) ∉ it.content) →
        transcript_to_single_line (T.map normItem) = transcript_to_single_line T) := by
  intro hclaim
  have h := hclaim [⟨"user".toList, [' ']⟩] (by decide)
  exact absurd h (by decide)

/-- C5, amended: the flattening produces `"ROLE: content | ..."` in the
original order with roles upper-cased and newlines collapsed, dropping
exactly the empty-content entries and never producing an empty segment
(the recursive description `flattenSpec`); and re-flattening is idempotent
on inputs whose contents are newline-free, provided additionally that no
content is whitespace-only (a whitespace-only content is kept by the first
pass but strips to empty and is dropped by a second pass). -/
theorem flatten_spec_and_idem (T : List TranscriptItem)
    (h1 : ∀ it ∈ T, ('\n' : Char) ∉ it.content)
    (h2 : ∀ it ∈ T, pyStrip it.content = [] → it.content = []) :
    transcript_to_single_line T = flattenSpec T ∧
    transcript_to_single_line (T.map normItem) = transcript_to_single_line T :=
  ⟨flatten_eq_flattenSpec T, flatten_map_normItem T h1 h2⟩

/-- C5, witness for `flatten_spec_and_idem` at a concrete transcript with
an empty-content entry in the middle. -/
theorem flatten_spec_and_idem_witness :
    transcript_to_single_line
        [⟨"user".toList, "Quiero una cita".toList⟩, ⟨"assistant".toList, []⟩,
         ⟨"assistant".toList, "Claro".toList⟩] =
      flattenSpec
        [⟨"user".toList, "Quiero una cita".toList⟩, ⟨"assistant".toList, []⟩,
         ⟨"assistant".toList, "Claro".toList⟩] ∧
    transcript_to_single_line
        (([⟨"user".toList, "Quiero una cita".toList⟩, ⟨"assistant".toList, []⟩,
           ⟨"assistant".toList, "Claro".toList⟩] : List TranscriptItem).map normItem) =
      transcript_to_single_line
        [⟨"user".toList, "Quiero una cita".toList⟩, ⟨"assistant".toList, []⟩,
         ⟨"assistant".toList, "Claro".toList⟩] :=
  flatten_spec_and_idem _ (by decide) (by decide)

/-! ## Helper lemmas about the pipeline's event trace -/

/-- The summarization step emits at most the failure log; in particular it
emits no append events. -/
theorem sumEvents_cases (deps : Deps) (tr : List TranscriptItem) :
    sumEvents deps tr = [] ∨ sumEvents deps tr = [Event.logError msgSumFailed] := by
  unfold sumEvents
  by_cases h : tr.isEmpty
  · rw [if_pos h]; exact Or.inl rfl
  · rw [if_neg h]
    cases deps.summarize tr
    · exact Or.inr rfl
    · exact Or.inl rfl

/-- No event of the call phase is a booking append. -/
theorem callPhase_no_visitAppend (deps : Deps) (call_id : Str) (started_us : Int)
    (tr : List TranscriptItem) :
    ∀ e ∈ callPhaseEvents deps call_id started_us tr, e.isVisitAppend = false := by
  intro e he
  unfold callPhaseEvents append_csv at he
  rcases sumEvents_cases deps tr with hs | hs
  · rw [hs] at he
    simp only [List.nil_append, List.cons_append, List.append_nil, List.mem_cons,
      List.not_mem_nil, or_false] at he
    rcases he with rfl | rfl | rfl | rfl | rfl <;> rfl
  · rw [hs] at he
    simp only [List.nil_append, List.cons_append, List.append_nil, List.mem_cons,
      List.not_mem_nil, or_false] at he
    rcases he with rfl | rfl | rfl | rfl | rfl | rfl <;> rfl

/-- The call phase contains the local append of the call record. -/
theorem callPhase_mem_localAppend (deps : Deps) (call_id : Str) (started_us : Int)
    (tr : List TranscriptItem) :
    Event.localAppend callsCsvName (Row.call (buildCallRow deps call_id started_us tr)) ∈
      callPhaseEvents deps call_id started_us tr := by
  unfold callPhaseEvents append_csv
  simp [List.mem_append]

/-- The call phase contains the remote dispatch of the call record. -/
theorem callPhase_mem_remoteAppend (deps : Deps) (call_id : Str) (started_us : Int)
    (tr : List TranscriptItem) :
    Event.remoteAppend llamadasSheet (Row.call (buildCallRow deps call_id started_us tr)) ∈
      callPhaseEvents deps call_id started_us tr := by
  unfold callPhaseEvents append_csv
  simp [List.mem_append]

/-- Closed form of a run on an absent `confirmed_visit`. -/
theorem handle_after_call_none (deps : Deps) (cid : Str) (started_us : Int)
    (tr : List TranscriptItem) (cid' : Str) :
    handle_after_call deps cid started_us tr ⟨cid', none⟩ =
      callPhaseEvents deps cid started_us tr ++ [Event.logInfo msgCompleted] := rfl

/-- Closed form of a run on a complete `confirmed_visit`. -/
theorem handle_after_call_complete (deps : Deps) (cid : Str) (started_us : Int)
    (tr : List TranscriptItem) (cid' n p d t : Str) :
    handle_after_call deps cid started_us tr ⟨cid', some ⟨some n, some p, some d, some t⟩⟩ =
      callPhaseEvents deps cid started_us tr ++
        [Event.localAppend scheduleCsvName
           (Row.visit ⟨(buildCallRow deps cid started_us tr).created_at_pst, n, p, d, t, cid⟩),
         Event.csvLog scheduleCsvName
           (deps.localSink scheduleCsvName
             (Row.visit ⟨(buildCallRow deps cid started_us tr).created_at_pst, n, p, d, t, cid⟩)).isOk,
         Event.remoteAppend citasSheet
           (Row.visit ⟨(buildCallRow deps cid started_us tr).created_at_pst, n, p, d, t, cid⟩),
         Event.sheetLog citasSheet
           (deps.remoteSink citasSheet
             (Row.visit ⟨(buildCallRow deps cid started_us tr).created_at_pst, n, p, d, t, cid⟩)).isOk,
         Event.logInfo msgCompleted] := rfl

/-- Closed form of an arbitrary run, split at the booking branch. -/
theorem handle_after_call_eq (deps : Deps) (cid : Str) (started_us : Int)
    (tr : List TranscriptItem) (ud : SessionData) :
    handle_after_call deps cid started_us tr ud =
      callPhaseEvents deps cid started_us tr ++
        ((visitPhase deps cid (buildCallRow deps cid started_us tr).created_at_pst
            ud.confirmed_visit).1 ++
          (match (visitPhase deps cid (buildCallRow deps cid started_us tr).created_at_pst
              ud.confirmed_visit).2 with
           | none => []
           | some _ => [Event.logError msgCrashed])) := by
  unfold handle_after_call handle_after_call_run afterCallBody
  rcases visitPhase deps cid (buildCallRow deps cid started_us tr).created_at_pst
    ud.confirmed_visit with ⟨tail, _ | e⟩ <;> simp

/-- After the booking branch at least one event (a completion or crash log)
is still emitted. -/
theorem visitPhase_rest_ne_nil (deps : Deps) (cid created : Str) (cv : Option VisitDict) :
    (visitPhase deps cid created cv).1 ++
      (match (visitPhase deps cid created cv).2 with
       | none => []
       | some _ => [Event.logError msgCrashed]) ≠ [] := by
  unfold visitPhase
  rcases cv with _ | ⟨_ | n, _ | p, _ | d, _ | t⟩ <;> simp [VisitDict.truthy, append_csv]

/-- C9: in every run with a (complete) confirmed booking the pipeline
appends exactly one booking record to each sink, its `created_at_pst`
equals the call record's, and every call-record append precedes every
booking-record append; in every run without a confirmed booking no
booking record reaches either sink. -/
theorem pipeline_booking_branch (deps : Deps) (cid cid' : Str) (started_us : Int)
    (tr : List TranscriptItem) (n p d t : Str) :
    (∃ evA vr cr,
      handle_after_call deps cid started_us tr
          ⟨cid', some ⟨some n, some p, some d, some t⟩⟩ =
        evA ++
          [Event.localAppend scheduleCsvName (Row.visit vr),
           Event.csvLog scheduleCsvName (deps.localSink scheduleCsvName (Row.visit vr)).isOk,
           Event.remoteAppend citasSheet (Row.visit vr),
           Event.sheetLog citasSheet (deps.remoteSink citasSheet (Row.visit vr)).isOk,
           Event.logInfo msgCompleted] ∧
      (∀ e ∈ evA, e.isVisitAppend = false) ∧
      Event.localAppend callsCsvName (Row.call cr) ∈ evA ∧
      Event.remoteAppend llamadasSheet (Row.call cr) ∈ evA ∧
      vr.created_at_pst = cr.created_at_pst ∧
      vr = ⟨cr.created_at_pst, n, p, d, t, cid⟩) ∧
    (∀ e ∈ handle_after_call deps cid started_us tr ⟨cid', none⟩,
      e.isVisitAppend = false) := by
  constructor
  · refine ⟨callPhaseEvents deps cid started_us tr,
      ⟨(buildCallRow deps cid started_us tr).created_at_pst, n, p, d, t, cid⟩,
      buildCallRow deps cid started_us tr,
      handle_after_call_complete deps cid started_us tr cid' n p d t,
      callPhase_no_visitAppend deps cid started_us tr,
      callPhase_mem_localAppend deps cid started_us tr,
      callPhase_mem_remoteAppend deps cid started_us tr, rfl, rfl⟩
  · intro e he
    rw [handle_after_call_none] at he
    rcases List.mem_append.mp he with h | h
    · exact callPhase_no_visitAppend deps cid started_us tr e h
    · rcases List.mem_singleton.mp h with rfl
      rfl

/-- C10: a truthy `confirmed_visit` missing one of the required keys makes
the booking branch raise `KeyError` before any booking append; the
`KeyError` reaches only the outer boundary, so the call record has already
been persisted to both sinks exactly as in a run without a booking, no
booking record reaches either sink, and the handler still returns
normally (logging the crash). -/
theorem pipeline_missing_booking_key (deps : Deps) (cid cid' : Str) (started_us : Int)
    (tr : List TranscriptItem) (v : VisitDict)
    (hT : v.truthy = true)
    (hM : v.name = none ∨ v.purpose = none ∨ v.visit_date = none ∨ v.visit_time = none) :
    handle_after_call deps cid started_us tr ⟨cid', some v⟩ =
      callPhaseEvents deps cid started_us tr ++ [Event.logError msgCrashed] ∧
    handle_after_call deps cid started_us tr ⟨cid', none⟩ =
      callPhaseEvents deps cid started_us tr ++ [Event.logInfo msgCompleted] ∧
    (∀ e ∈ handle_after_call deps cid started_us tr ⟨cid', some v⟩,
      e.isVisitAppend = false) ∧
    Event.localAppend callsCsvName (Row.call (buildCallRow deps cid started_us tr)) ∈
      handle_after_call deps cid started_us tr ⟨cid', some v⟩ ∧
    Event.remoteAppend llamadasSheet (Row.call (buildCallRow deps cid started_us tr)) ∈
      handle_after_call deps cid started_us tr ⟨cid', some v⟩ ∧
    (handle_after_call_run deps cid started_us tr ⟨cid', some v⟩).isOk = true := by
  have h0 : handle_after_call deps cid started_us tr ⟨cid', some v⟩ =
      callPhaseEvents deps cid started_us tr ++ [Event.logError msgCrashed] := by
    obtain ⟨vn, vp, vd, vt⟩ := v
    rcases vn with _ | n <;> rcases vp with _ | p <;> rcases vd with _ | d <;>
      rcases vt with _ | t <;>
      simp_all [handle_after_call, handle_after_call_run, afterCallBody, visitPhase,
        VisitDict.truthy]
  have h6 : (handle_after_call_run deps cid started_us tr ⟨cid', some v⟩).isOk = true := by
    unfold handle_after_call_run
    rcases afterCallBody deps cid started_us tr ⟨cid', some v⟩ with ⟨ev, _ | e⟩ <;> rfl
  refine ⟨h0, handle_after_call_none deps cid started_us tr cid', ?_, ?_, ?_, h6⟩
  · intro e he
    rw [h0] at he
    rcases List.mem_append.mp he with h | h
    · exact callPhase_no_visitAppend deps cid started_us tr e h
    · rcases List.mem_singleton.mp h with rfl
      rfl
  · rw [h0]
    exact List.mem_append.mpr (Or.inl (callPhase_mem_localAppend deps cid started_us tr))
  · rw [h0]
    exact List.mem_append.mpr (Or.inl (callPhase_mem_remoteAppend deps cid started_us tr))

/-- C10, witness for `pipeline_missing_booking_key` at a concrete run whose
`confirmed_visit` lacks the `name` key. -/
theorem pipeline_missing_booking_key_witness :
    handle_after_call ⟨0, fun _ => [], fun _ => .ok [], fun _ _ => .ok (), fun _ _ => .ok ()⟩
        [] 0 []
        ⟨[], some ⟨none, some "boda".toList, some "2026-02-14".toList, some "18:00".toList⟩⟩ =
      callPhaseEvents ⟨0, fun _ => [], fun _ => .ok [], fun _ _ => .ok (), fun _ _ => .ok ()⟩
          [] 0 [] ++ [Event.logError msgCrashed] :=
  (pipeline_missing_booking_key
    ⟨0, fun _ => [], fun _ => .ok [], fun _ _ => .ok (), fun _ _ => .ok ()⟩ [] [] 0 []
    ⟨none, some "boda".toList, some "2026-02-14".toList, some "18:00".toList⟩
    (by decide) (Or.inl rfl)).1

/-- C7, counterexample: the pipeline does wait on the remote dispatch.  Two
runs identical except for the remote sink's outcome produce different
pipeline traces (the success log versus the failure log after the same
dispatch event), so the events following the dispatch — and the pipeline's
own completion — depend on the awaited remote outcome; the claimed
non-blocking, not-waited-for dispatch would make the trace independent of
it.  (The source awaits `asyncio.to_thread(append_row_to_sheet, ...)`
inline and sets no timeout.) -/
theorem remote_outcome_affects_pipeline :
    (handle_after_call ⟨0, fun _ => [], fun _ => .ok [], fun _ _ => .ok (), fun _ _ => .ok ()⟩
        [] 0 [] ⟨[], none⟩ ≠
      handle_after_call
        ⟨0, fun _ => [], fun _ => .ok [], fun _ _ => .ok (), fun _ _ => .error .runtimeError⟩
        [] 0 [] ⟨[], none⟩) ∧
    Event.remoteAppend llamadasSheet
        (Row.call (buildCallRow
          ⟨0, fun _ => [], fun _ => .ok [], fun _ _ => .ok (), fun _ _ => .ok ()⟩ [] 0 [])) ∈
      handle_after_call ⟨0, fun _ => [], fun _ => .ok [], fun _ _ => .ok (), fun _ _ => .ok ()⟩
        [] 0 [] ⟨[], none⟩ ∧
    Event.remoteAppend llamadasSheet
        (Row.call (buildCallRow
          ⟨0, fun _ => [], fun _ => .ok [], fun _ _ => .ok (), fun _ _ => .error .runtimeError⟩
          [] 0 [])) ∈
      handle_after_call
        ⟨0, fun _ => [], fun _ => .ok [], fun _ _ => .ok (), fun _ _ => .error .runtimeError⟩
        [] 0 [] ⟨[], none⟩ :=
  ⟨by decide, by decide, by decide⟩

/-- C7, amended: the remote sink append is dispatched (to a worker thread)
once per record but awaited inline: immediately after the dispatch the
trace records the awaited remote outcome, and the pipeline emits at least
one further event (its completion or crash log) only after that outcome is
known.  No explicit timeout is configured anywhere on the remote path. -/
theorem remote_append_awaited_inline (deps : Deps) (cid : Str) (started_us : Int)
    (tr : List TranscriptItem) (ud : SessionData) :
    ∃ cr pre rest,
      handle_after_call deps cid started_us tr ud =
        pre ++
          Event.remoteAppend llamadasSheet (Row.call cr) ::
          Event.sheetLog llamadasSheet (deps.remoteSink llamadasSheet (Row.call cr)).isOk ::
          rest ∧
      rest ≠ [] := by
  refine ⟨buildCallRow deps cid started_us tr,
    [Event.logInfo msgStarted] ++ sumEvents deps tr ++
      append_csv deps callsCsvName (Row.call (buildCallRow deps cid started_us tr)),
    (visitPhase deps cid (buildCallRow deps cid started_us tr).created_at_pst
        ud.confirmed_visit).1 ++
      (match (visitPhase deps cid (buildCallRow deps cid started_us tr).created_at_pst
          ud.confirmed_visit).2 with
       | none => []
       | some _ => [Event.logError msgCrashed]), ?_, ?_⟩
  · rw [handle_after_call_eq]
    unfold callPhaseEvents
    simp [List.append_assoc]
  · exact visitPhase_rest_ne_nil deps cid _ ud.confirmed_visit

/-- C9, witness for `pipeline_booking_branch`: the start log of a concrete
bookingless run is not a booking append. -/
theorem pipeline_booking_branch_witness :
    (Event.logInfo msgStarted).isVisitAppend = false :=
  (pipeline_booking_branch
    ⟨0, fun _ => [], fun _ => .ok [], fun _ _ => .ok (), fun _ _ => .ok ()⟩
    [] [] 0 [] [] [] [] []).2 (Event.logInfo msgStarted) (by decide)
